import Mathlib

/-!
Shallow embedding of `src/server.js`, a movie-catalogue HTTP backend:
five Express handlers over a MongoDB collection (`Movie` model) and a
Cloudinary image upload.

Modelling conventions:
* The MongoDB collection is a list of `(id, record)` pairs plus a fresh-id
  counter (`Store`).  Mongo's `_id` values are opaque and unique; we model
  them as naturals.  A request-supplied `:id` path parameter may fail to
  cast to an ObjectId, which mongoose signals with a `CastError`; we model
  request identifiers as `ReqId`, with a `malformed` constructor for the
  uncastable case.
* The external Cloudinary upload resolves to either a secure URL or an
  error; each handler that may upload takes the outcome of that external
  call as an explicit `Except String String` argument.
* Multipart form bodies (parsed by multer) carry every field as a string;
  an absent field is `none`.  JavaScript's `x || y` fallback on such a
  field is false exactly on `none` (undefined) and `some ""` (empty
  string), which `jsOr` mirrors.
* Mongoose casts: a `Number` path cast from a string is modelled by
  `castNumber`; an empty string casts to null (so a required check fails).
  A `Date` path is modelled by its string form, `castDate` accepting any
  non-empty string (no claim depends on which strings denote valid dates).
* `new Movie(...).save()` runs the schema validators (`required` on all
  six paths, which for strings demands non-emptiness, and `min: 0, max:
  10` on `rating`); `buildMovie` mirrors this and yields `none` when
  validation or a cast fails.  `findByIdAndUpdate` runs casts but, by
  mongoose default, no validators; `mergeMovie` mirrors this.
-/

/-- A persisted movie document: the six schema paths of `movieSchema`
(`src/server.js` lines 34-41).  `rating` is a mongoose `Number`
(integer-valued in this development) and `releaseDate` a `Date` kept in
string form. -/
structure StoredMovie where
  title : String
  description : String
  imageUrl : String
  genre : String
  rating : Int
  releaseDate : String
deriving DecidableEq, Repr

/-- The movie collection: association list from assigned ids to documents,
with the next fresh id.  Mongo assigns a fresh unique `_id` on insert. -/
structure Store where
  movies : List (Nat × StoredMovie)
  nextId : Nat
deriving DecidableEq, Repr

/-- A request `:id` path parameter: either castable to an ObjectId that we
model as a natural, or malformed (mongoose raises `CastError`). -/
inductive ReqId where
  | valid (n : Nat)
  | malformed
deriving DecidableEq, Repr

/-- An uploaded file held in memory by multer (`req.file`); only its
buffer matters here. -/
structure File where
  buffer : List Nat
deriving DecidableEq, Repr

/-- A multipart request body as multer parses it, plus the optional file
attachment.  Every form field arrives as a string; `none` means the field
was omitted.  The `imageUrl` form field can be sent by a client but is
never read by any handler. -/
structure MovieReq where
  title : Option String
  description : Option String
  genre : Option String
  rating : Option String
  releaseDate : Option String
  imageUrl : Option String
  file : Option File
deriving DecidableEq, Repr

/-- A response body: a single movie JSON (with its id), a list, a plain
message, or an error payload carrying `message` and `error` fields. -/
inductive Body where
  | movie (id : Nat) (m : StoredMovie)
  | movieList (l : List (Nat × StoredMovie))
  | message (s : String)
  | failure (s : String) (detail : String)
deriving DecidableEq, Repr

/-- JavaScript `x || y` where `x` is a form field (string or undefined)
and `y` a stored string: `undefined` and `""` are falsy, any other string
truthy. -/
def jsOr (v : Option String) (prev : String) : String :=
  match v with
  | none => prev
  | some s => if s.isEmpty then prev else s

/-- Accumulate a run of decimal digits; any non-digit character fails the
cast. -/
def decDigits : List Char → Nat → Option Nat
  | [], acc => some acc
  | c :: cs, acc =>
    if c.isDigit then decDigits cs (acc * 10 + (c.toNat - 48)) else none

/-- Mongoose cast of a form string to a `Number` path, for the
integer-valued numerics this development models (no claim depends on
fractional ratings).  An empty string casts to null (so the `required`
validator fails); a non-numeric string raises `CastError`.  Both failure
modes are `none`. -/
def castNumber (s : String) : Option Int :=
  match s.data with
  | [] => none
  | '-' :: cs =>
    match cs with
    | [] => none
    | _ => (decDigits cs 0).map (fun n => -(n : Int))
  | cs => (decDigits cs 0).map (fun n => (n : Int))

/-- Mongoose cast of a form string to a `Date` path, with dates kept in
string form: the empty string (and, in the real code, any unparsable
string) fails to cast. -/
def castDate (s : String) : Option String :=
  if s.isEmpty then none else some s

/-- Mongoose `required` check for a string path: the value must be present
and non-empty. -/
def requiredString (v : Option String) : Option String :=
  match v with
  | none => none
  | some s => if s.isEmpty then none else some s

/-- First document whose id matches, as `findById` / `findOne` on the
unique `_id` index. -/
def lookupList : List (Nat × StoredMovie) → Nat → Option StoredMovie
  | [], _ => none
  | p :: ps, n => if p.1 = n then some p.2 else lookupList ps n

def Store.lookup (st : Store) (n : Nat) : Option StoredMovie :=
  lookupList st.movies n

/-- Replace the document with the given id (ids are unique under Mongo's
`_id` index, so replacing every match coincides with replacing the one
match). -/
def updateList : List (Nat × StoredMovie) → Nat → StoredMovie → List (Nat × StoredMovie)
  | [], _, _ => []
  | p :: ps, n, m => (if p.1 = n then (p.1, m) else p) :: updateList ps n m

def Store.updateAt (st : Store) (n : Nat) (m : StoredMovie) : Store :=
  ⟨updateList st.movies n m, st.nextId⟩

/-- Remove the document with the given id (again, ids are unique, so
removing every match coincides with `findByIdAndDelete`). -/
def removeList : List (Nat × StoredMovie) → Nat → List (Nat × StoredMovie)
  | [], _ => []
  | p :: ps, n => if p.1 = n then removeList ps n else p :: removeList ps n

def Store.removeAt (st : Store) (n : Nat) : Store :=
  ⟨removeList st.movies n, st.nextId⟩

/-- `new Movie({...}).save()` for the create handler (`src/server.js`
lines 74-84): every path is required (strings non-empty), `rating` is cast
from its form string and must lie in `[0, 10]`, `releaseDate` must cast,
and `imageUrl` is the upload result (also required non-empty).  `none`
means `save` threw a `ValidationError` or `CastError`. -/
def buildMovie (req : MovieReq) (url : String) : Option StoredMovie :=
  match requiredString req.title, requiredString req.description,
        requiredString req.genre, req.rating.bind castNumber,
        req.releaseDate.bind castDate with
  | some t, some d, some g, some r, some rd =>
      if url.isEmpty then none
      else if 0 ≤ r ∧ r ≤ 10 then
        some { title := t, description := d, imageUrl := url,
               genre := g, rating := r, releaseDate := rd }
      else none
  | _, _, _, _, _ => none

/-- The `rating` value of the update object: `req.body.rating ||
movie.rating` (the form value is a string, so a supplied `"0"` is truthy),
then mongoose's cast on update. -/
def mergeRating (v : Option String) (prev : Int) : Option Int :=
  match v with
  | none => some prev
  | some s => if s.isEmpty then some prev else castNumber s

/-- The `releaseDate` value of the update object: `req.body.releaseDate ||
movie.releaseDate`, then mongoose's cast on update. -/
def mergeDate (v : Option String) (prev : String) : Option String :=
  match v with
  | none => some prev
  | some s => if s.isEmpty then some prev else castDate s

/-- The update object passed to `findByIdAndUpdate` (`src/server.js`
lines 138-149): per-field `req.body.x || movie.x` fallback on the string
paths, the precomputed `imageUrl`, and cast-on-update (`findByIdAndUpdate`
casts but, by mongoose default, runs no validators) for `rating` and
`releaseDate`.  `none` means the cast of a supplied value threw, so the
handler's catch block answers 400. -/
def mergeMovie (req : MovieReq) (m : StoredMovie) (newUrl : String) : Option StoredMovie :=
  match mergeRating req.rating m.rating, mergeDate req.releaseDate m.releaseDate with
  | some r, some rd =>
      some { title := jsOr req.title m.title,
             description := jsOr req.description m.description,
             imageUrl := newUrl,
             genre := jsOr req.genre m.genre,
             rating := r, releaseDate := rd }
  | _, _ => none

/-- `POST /api/movies` (`src/server.js` lines 47-90): 400 when no file is
attached; otherwise upload the buffer, then build and save the document.
Returns (status, resulting store, response body). -/
def postMovie (st : Store) (req : MovieReq) (uploadRes : Except String String) :
    Nat × Store × Body :=
  match req.file with
  | none => (400, st, Body.message "No file uploaded")
  | some _ =>
    match uploadRes with
    | Except.error e => (500, st, Body.failure "Error uploading image" e)
    | Except.ok url =>
      match buildMovie req url with
      | none => (500, st, Body.failure "Error uploading image" "ValidationError")
      | some m =>
          (201, ⟨st.movies ++ [(st.nextId, m)], st.nextId + 1⟩,
           Body.movie st.nextId m)

/-- `GET /api/movies` (`src/server.js` lines 93-100). -/
def getMovies (st : Store) : Nat × Body :=
  (200, Body.movieList st.movies)

/-- `GET /api/movies/:id` (`src/server.js` lines 103-111): a malformed id
makes `findById` throw `CastError`, caught as 500; a missing document is
404; otherwise 200 with the document. -/
def getMovie (st : Store) (id : ReqId) : Nat × Body :=
  match id with
  | ReqId.malformed => (500, Body.failure "Error fetching movie" "CastError")
  | ReqId.valid n =>
    match st.lookup n with
    | none => (404, Body.message "Movie not found")
    | some m => (200, Body.movie n m)

/-- `PUT /api/movies/:id` (`src/server.js` lines 114-156): a malformed id
throws at `findById`, caught as 400; a missing document is 404; otherwise
the existing `imageUrl` is kept unless a file is attached, in which case
the upload result replaces it (an upload error is caught as 400); then
`findByIdAndUpdate` applies the per-field fallback merge (a cast failure
is caught as 400) and the updated document is returned with 200. -/
def putMovie (st : Store) (id : ReqId) (req : MovieReq) (uploadRes : Except String String) :
    Nat × Store × Body :=
  match id with
  | ReqId.malformed => (400, st, Body.failure "Error updating movie" "CastError")
  | ReqId.valid n =>
    match st.lookup n with
    | none => (404, st, Body.message "Movie not found")
    | some m =>
      match req.file with
      | none =>
        match mergeMovie req m m.imageUrl with
        | none => (400, st, Body.failure "Error updating movie" "CastError")
        | some m2 => (200, st.updateAt n m2, Body.movie n m2)
      | some _ =>
        match uploadRes with
        | Except.error e => (400, st, Body.failure "Error updating movie" e)
        | Except.ok url =>
          match mergeMovie req m url with
          | none => (400, st, Body.failure "Error updating movie" "CastError")
          | some m2 => (200, st.updateAt n m2, Body.movie n m2)

/-- `DELETE /api/movies/:id` (`src/server.js` lines 160-169): a malformed
id throws at `findByIdAndDelete`, caught as 500; a missing document is
404; otherwise the document is removed and a confirmation returned. -/
def deleteMovie (st : Store) (id : ReqId) : Nat × Store × Body :=
  match id with
  | ReqId.malformed => (500, st, Body.failure "Error deleting movie" "CastError")
  | ReqId.valid n =>
    match st.lookup n with
    | none => (404, st, Body.message "Movie not found")
    | some _ => (200, st.removeAt n, Body.message "Movie deleted successfully")

/-- One client-visible operation against the backend, together with the
outcome of the external upload call where one may happen. -/
inductive Op where
  | create (req : MovieReq) (uploadRes : Except String String)
  | update (id : ReqId) (req : MovieReq) (uploadRes : Except String String)
  | remove (id : ReqId)
  | readAll
  | readOne (id : ReqId)

/-- The store after one operation (reads leave it unchanged). -/
def applyOp (st : Store) : Op → Store
  | Op.create req u => (postMovie st req u).2.1
  | Op.update id req u => (putMovie st id req u).2.1
  | Op.remove id => (deleteMovie st id).2.1
  | Op.readAll => st
  | Op.readOne _ => st

/-- Every string field of a persisted document is populated (non-empty);
`rating` and the id are numerics, populated by construction. -/
def recordOk (m : StoredMovie) : Bool :=
  !m.title.isEmpty && !m.description.isEmpty && !m.imageUrl.isEmpty &&
  !m.genre.isEmpty && !m.releaseDate.isEmpty

/-- The store invariant: every persisted document has all its fields
populated. -/
def storeOk (st : Store) : Bool :=
  st.movies.all (fun p => recordOk p.2)

/-- The upload gateway contract (spec 4.2): a successful upload yields a
secure URL, in particular a non-empty one.  Only operations that consult
an upload outcome constrain it. -/
def opUrlsOk : Op → Prop
  | Op.create _ u => ∀ url, u = Except.ok url → url.isEmpty = false
  | Op.update _ _ u => ∀ url, u = Except.ok url → url.isEmpty = false
  | _ => True

/-! ### Concrete sample data -/

def emptyStore : Store := ⟨[], 0⟩

def sampleMovie : StoredMovie :=
  { title := "Inception", description := "A heist inside dreams",
    imageUrl := "https://res.cloudinary.com/demo/inception.png",
    genre := "SciFi", rating := 9, releaseDate := "2010-07-16" }

def sampleStore : Store := ⟨[(0, sampleMovie)], 1⟩

def sampleUrl : String := "https://res.cloudinary.com/demo/inception.png"

def sampleCreateReq : MovieReq :=
  { title := some "Inception", description := some "A heist inside dreams",
    genre := some "SciFi", rating := some "9",
    releaseDate := some "2010-07-16", imageUrl := none,
    file := some ⟨[137, 80, 78, 71]⟩ }

def noFileReq : MovieReq := { sampleCreateReq with file := none }

def badRatingReq : MovieReq := { sampleCreateReq with rating := some "11" }

def newUrlSample : String := "https://res.cloudinary.com/demo/updated.png"

/-- An update request: `title` and `releaseDate` omitted, `description`
supplied empty, `genre` supplied, `rating` supplied as `"0"`, a spoofed
client `imageUrl` form field, and a file attached. -/
def updReq : MovieReq :=
  { title := none, description := some "", genre := some "Thriller",
    rating := some "0", releaseDate := none,
    imageUrl := some "https://client.example/spoofed.png",
    file := some ⟨[1, 2, 3]⟩ }

def updReqNoFile : MovieReq := { updReq with file := none }

/-- What the fallback merge of `updReq` over `sampleMovie` with the fresh
upload URL should produce. -/
def updatedSample : StoredMovie :=
  { title := "Inception", description := "A heist inside dreams",
    imageUrl := newUrlSample, genre := "Thriller", rating := 0,
    releaseDate := "2010-07-16" }

/-! ### Helper lemmas about the embedded store and validators -/

theorem requiredString_not_empty {v : Option String} {s : String}
    (h : requiredString v = some s) : s.isEmpty = false := by
  cases v with
  | none => simp [requiredString] at h
  | some x =>
    cases hx : x.isEmpty with
    | true => simp [requiredString, hx] at h
    | false => simp [requiredString, hx] at h; subst h; exact hx

theorem castDate_not_empty {s rd : String} (h : castDate s = some rd) :
    rd.isEmpty = false := by
  cases hs : s.isEmpty with
  | true => simp [castDate, hs] at h
  | false => simp [castDate, hs] at h; subst h; exact hs

theorem jsOr_not_empty {v : Option String} {prev : String}
    (h : prev.isEmpty = false) : (jsOr v prev).isEmpty = false := by
  cases v with
  | none => exact h
  | some s =>
    cases hs : s.isEmpty with
    | true => simp [jsOr, hs, h]
    | false => simp [jsOr, hs]

theorem lookupList_append_fresh (l : List (Nat × StoredMovie)) (n : Nat) (m : StoredMovie)
    (h : ∀ p ∈ l, p.1 ≠ n) :
    lookupList (l ++ [(n, m)]) n = some m := by
  induction l with
  | nil => simp [lookupList]
  | cons a t ih =>
    have ha : a.1 ≠ n := h a (List.mem_cons_self a t)
    simp only [List.cons_append, lookupList, if_neg ha]
    exact ih fun p hp => h p (List.mem_cons_of_mem a hp)

theorem lookupList_updateList {l : List (Nat × StoredMovie)} {n : Nat} {m : StoredMovie}
    (m2 : StoredMovie) (h : lookupList l n = some m) :
    lookupList (updateList l n m2) n = some m2 := by
  induction l with
  | nil => simp [lookupList] at h
  | cons a t ih =>
    by_cases ha : a.1 = n
    · simp [updateList, lookupList, ha]
    · simp only [updateList, if_neg ha, lookupList]
      rw [lookupList, if_neg ha] at h
      exact ih h

theorem lookupList_removeList (l : List (Nat × StoredMovie)) (n : Nat) :
    lookupList (removeList l n) n = none := by
  induction l with
  | nil => rfl
  | cons a t ih =>
    by_cases ha : a.1 = n
    · simpa [removeList, ha] using ih
    · simp [removeList, ha, lookupList, ih]

theorem all_updateList {l : List (Nat × StoredMovie)} {n : Nat} {m2 : StoredMovie}
    (h : l.all (fun p => recordOk p.2) = true) (h2 : recordOk m2 = true) :
    (updateList l n m2).all (fun p => recordOk p.2) = true := by
  induction l with
  | nil => rfl
  | cons a t ih =>
    simp only [List.all_cons, Bool.and_eq_true] at h
    by_cases ha : a.1 = n
    · simp [updateList, ha, List.all_cons, h2, ih h.2]
    · simp [updateList, ha, List.all_cons, h.1, ih h.2]

theorem all_removeList {l : List (Nat × StoredMovie)} {n : Nat}
    (h : l.all (fun p => recordOk p.2) = true) :
    (removeList l n).all (fun p => recordOk p.2) = true := by
  induction l with
  | nil => rfl
  | cons a t ih =>
    simp only [List.all_cons, Bool.and_eq_true] at h
    by_cases ha : a.1 = n
    · simp [removeList, ha, ih h.2]
    · simp [removeList, ha, List.all_cons, h.1, ih h.2]

theorem recordOk_of_lookup {l : List (Nat × StoredMovie)} {n : Nat} {m : StoredMovie}
    (h : l.all (fun p => recordOk p.2) = true) (hl : lookupList l n = some m) :
    recordOk m = true := by
  induction l with
  | nil => simp [lookupList] at hl
  | cons a t ih =>
    simp only [List.all_cons, Bool.and_eq_true] at h
    by_cases ha : a.1 = n
    · rw [lookupList, if_pos ha] at hl
      injection hl with hl
      subst hl
      exact h.1
    · rw [lookupList, if_neg ha] at hl
      exact ih h.2 hl

theorem recordOk_fields {m : StoredMovie} (h : recordOk m = true) :
    m.title.isEmpty = false ∧ m.description.isEmpty = false ∧
    m.imageUrl.isEmpty = false ∧ m.genre.isEmpty = false ∧
    m.releaseDate.isEmpty = false := by
  simp only [recordOk, Bool.and_eq_true, Bool.not_eq_true'] at h
  exact ⟨h.1.1.1.1, h.1.1.1.2, h.1.1.2, h.1.2, h.2⟩

/-- The record the spec says an update should produce (spec 4.1
`UpdateByID` and spec 8): every field that is omitted or empty in the
request keeps its previous value, every supplied (non-empty) field takes
the supplied value — cast to a number for `rating` — and `imageUrl`
becomes the given URL (the prior one, or the freshly uploaded one).
Stated from the spec's words, to be compared with `mergeMovie`, which is
read off the source. -/
def specMergedMovie (req : MovieReq) (m : StoredMovie) (newUrl : String) : StoredMovie :=
  { title := match req.title with
             | none => m.title
             | some s => if s.isEmpty then m.title else s,
    description := match req.description with
                   | none => m.description
                   | some s => if s.isEmpty then m.description else s,
    imageUrl := newUrl,
    genre := match req.genre with
             | none => m.genre
             | some s => if s.isEmpty then m.genre else s,
    rating := match req.rating with
              | none => m.rating
              | some s => if s.isEmpty then m.rating else (castNumber s).getD m.rating,
    releaseDate := match req.releaseDate with
                   | none => m.releaseDate
                   | some s => if s.isEmpty then m.releaseDate else s }

theorem mergeDate_not_empty {v : Option String} {prev rd : String}
    (h : mergeDate v prev = some rd) (hprev : prev.isEmpty = false) :
    rd.isEmpty = false := by
  cases v with
  | none =>
    simp only [mergeDate] at h
    injection h with h
    subst h
    exact hprev
  | some s =>
    cases hs : s.isEmpty with
    | true =>
      simp [mergeDate, hs] at h
      subst h
      exact hprev
    | false =>
      simp [mergeDate, hs] at h
      exact castDate_not_empty h

theorem mergeMovie_eq_spec (req : MovieReq) (m : StoredMovie) (newUrl : String)
    (hr : ∀ s, req.rating = some s → s.isEmpty = false → (castNumber s).isSome = true) :
    mergeMovie req m newUrl = some (specMergedMovie req m newUrl) := by
  have hrat : mergeRating req.rating m.rating =
      some (match req.rating with
            | none => m.rating
            | some s => if s.isEmpty then m.rating else (castNumber s).getD m.rating) := by
    cases hv : req.rating with
    | none => rfl
    | some s =>
      cases hs : s.isEmpty with
      | true => simp [mergeRating, hs]
      | false =>
        obtain ⟨v, hcv⟩ := Option.isSome_iff_exists.mp (hr s hv hs)
        simp [mergeRating, hs, hcv]
  have hdat : mergeDate req.releaseDate m.releaseDate =
      some (match req.releaseDate with
            | none => m.releaseDate
            | some s => if s.isEmpty then m.releaseDate else s) := by
    cases hv : req.releaseDate with
    | none => rfl
    | some s =>
      cases hs : s.isEmpty with
      | true => simp [mergeDate, hs]
      | false => simp [mergeDate, hs, castDate]
  unfold mergeMovie
  rw [hrat, hdat]
  rfl

theorem mergeMovie_imageUrl {req : MovieReq} {m : StoredMovie} {newUrl : String}
    {m2 : StoredMovie} (h : mergeMovie req m newUrl = some m2) :
    m2.imageUrl = newUrl := by
  unfold mergeMovie at h
  split at h
  · injection h with h
    subst h
    rfl
  · simp at h

theorem recordOk_mergeMovie {req : MovieReq} {m : StoredMovie} {newUrl : String}
    {m2 : StoredMovie} (hm : recordOk m = true) (hu : newUrl.isEmpty = false)
    (h : mergeMovie req m newUrl = some m2) : recordOk m2 = true := by
  unfold mergeMovie at h
  split at h
  · rename_i r rd hR hRD
    injection h with h
    subst h
    obtain ⟨ht, hd, hi, hg, hrd⟩ := recordOk_fields hm
    have hrd2 : rd.isEmpty = false := mergeDate_not_empty hRD hrd
    simp [recordOk, jsOr_not_empty ht, jsOr_not_empty hd, jsOr_not_empty hg, hu, hrd2]
  · simp at h

theorem buildMovie_spec {req : MovieReq} {url : String} {m : StoredMovie}
    (h : buildMovie req url = some m) :
    m.imageUrl = url ∧ recordOk m = true ∧ 0 ≤ m.rating ∧ m.rating ≤ 10 := by
  unfold buildMovie at h
  split at h
  · rename_i t d g r rd hT hD hG hR hRD
    split at h
    · simp at h
    · rename_i hu
      split at h
      · rename_i hr
        injection h with h
        subst h
        have hu2 : url.isEmpty = false := by simpa using hu
        have hrd : rd.isEmpty = false := by
          cases hv : req.releaseDate with
          | none => rw [hv] at hRD; simp at hRD
          | some s =>
            rw [hv] at hRD
            exact castDate_not_empty (show castDate s = some rd from hRD)
        refine ⟨rfl, ?_, hr.1, hr.2⟩
        simp [recordOk, requiredString_not_empty hT, requiredString_not_empty hD,
              requiredString_not_empty hG, hu2, hrd]
      · simp at h
  · simp at h

theorem buildMovie_none_of_bad_rating {req : MovieReq} {s : String} {v : Int}
    (hs : req.rating = some s) (hv : castNumber s = some v)
    (hrange : v < 0 ∨ 10 < v) (url : String) :
    buildMovie req url = none := by
  have hb : req.rating.bind castNumber = some v := by rw [hs]; exact hv
  unfold buildMovie
  split
  · rename_i t d g r rd hT hD hG hR hRD
    rw [hb] at hR
    injection hR with hR
    subst hR
    have hnr : ¬(0 ≤ v ∧ v ≤ 10) := by omega
    split <;> rfl
  · rfl

/-! ### Claim theorems -/

/-- C1: a create request carrying a file and valid field values persists a
record whose `imageUrl` equals the secure URL returned by the upload step,
the response is 201 with the stored record, and a subsequent GET by the
assigned identifier answers 200 with that same record. -/
theorem create_persists_and_get_returns
    (st : Store) (req : MovieReq) (url : String) (m : StoredMovie)
    (hfresh : ∀ p ∈ st.movies, p.1 ≠ st.nextId)
    (hfile : req.file.isSome = true)
    (hbuild : buildMovie req url = some m) :
    postMovie st req (Except.ok url) =
      (201, ⟨st.movies ++ [(st.nextId, m)], st.nextId + 1⟩, Body.movie st.nextId m) ∧
    (postMovie st req (Except.ok url)).2.1.lookup st.nextId = some m ∧
    m.imageUrl = url ∧
    getMovie (postMovie st req (Except.ok url)).2.1 (ReqId.valid st.nextId) =
      (200, Body.movie st.nextId m) := by
  obtain ⟨f, hf⟩ := Option.isSome_iff_exists.mp hfile
  have hpost : postMovie st req (Except.ok url) =
      (201, ⟨st.movies ++ [(st.nextId, m)], st.nextId + 1⟩, Body.movie st.nextId m) := by
    simp [postMovie, hf, hbuild]
  have hlook : (Store.mk (st.movies ++ [(st.nextId, m)]) (st.nextId + 1)).lookup
      st.nextId = some m :=
    lookupList_append_fresh st.movies st.nextId m hfresh
  refine ⟨hpost, ?_, (buildMovie_spec hbuild).1, ?_⟩
  · rw [hpost]
    exact hlook
  · rw [hpost]
    simp [getMovie, hlook]

/-- C2: for an existing record, the update applies the per-field fallback
merge — each of title, description, genre, rating, releaseDate that is
omitted or empty keeps its previous value, each supplied non-empty field
(including a rating supplied as the string "0") takes the supplied value —
`imageUrl` is replaced by the newly returned upload URL exactly when a new
file is attached (otherwise kept), and the handler stores and returns the
updated record with 200. -/
theorem update_applies_per_field_fallback
    (st : Store) (n : Nat) (m : StoredMovie) (req : MovieReq)
    (u : Except String String) (newUrl : String)
    (hm : st.lookup n = some m)
    (hurl : (req.file = none ∧ newUrl = m.imageUrl) ∨
            (req.file ≠ none ∧ u = Except.ok newUrl))
    (hr : ∀ s, req.rating = some s → s.isEmpty = false → (castNumber s).isSome = true) :
    putMovie st (ReqId.valid n) req u =
      (200, st.updateAt n (specMergedMovie req m newUrl),
       Body.movie n (specMergedMovie req m newUrl)) := by
  have hmerge := mergeMovie_eq_spec req m newUrl hr
  rcases hurl with ⟨hf, hnu⟩ | ⟨hf, hu⟩
  · subst hnu
    simp [putMovie, hm, hf, hmerge]
  · obtain ⟨f, hf2⟩ : ∃ f, req.file = some f := by
      cases hc : req.file with
      | none => exact absurd hc hf
      | some f => exact ⟨f, rfl⟩
    subst hu
    simp [putMovie, hm, hf2, hmerge]

/-- C3: a create request with no attached file is answered 400 with a
validation message, the store is unchanged, and the outcome is the same
for every upload outcome (no upload is consulted). -/
theorem create_without_file_rejected
    (st : Store) (req : MovieReq) (u1 u2 : Except String String)
    (h : req.file = none) :
    postMovie st req u1 = (400, st, Body.message "No file uploaded") ∧
    postMovie st req u1 = postMovie st req u2 := by
  constructor <;> simp [postMovie, h]

/-- C4: a create request whose rating casts to a value outside the
inclusive range [0, 10] is rejected: the store is unchanged and the
handler reports failure (400 or 500), whatever the upload outcome. -/
theorem create_rating_out_of_range_rejected
    (st : Store) (req : MovieReq) (u : Except String String) (s : String) (v : Int)
    (hs : req.rating = some s) (hv : castNumber s = some v)
    (hrange : v < 0 ∨ 10 < v) :
    (postMovie st req u).2.1 = st ∧
    ((postMovie st req u).1 = 400 ∨ (postMovie st req u).1 = 500) := by
  have hb : ∀ url, buildMovie req url = none :=
    fun url => buildMovie_none_of_bad_rating hs hv hrange url
  cases hf : req.file with
  | none => simp [postMovie, hf]
  | some f =>
    cases u with
    | error e => simp [postMovie, hf]
    | ok url => simp [postMovie, hf, hb url]

/-- C5: deleting an identifier with no matching record answers 404 and
leaves the store unchanged; deleting an existing identifier removes the
record permanently, answers 200 with a confirmation message, and a
subsequent GET for that identifier answers 404. -/
theorem delete_nonexistent_404_existing_removes
    (st : Store) (n k : Nat) (m : StoredMovie)
    (hn : st.lookup n = none) (hk : st.lookup k = some m) :
    deleteMovie st (ReqId.valid n) = (404, st, Body.message "Movie not found") ∧
    deleteMovie st (ReqId.valid k) =
      (200, st.removeAt k, Body.message "Movie deleted successfully") ∧
    (st.removeAt k).lookup k = none ∧
    getMovie (deleteMovie st (ReqId.valid k)).2.1 (ReqId.valid k) =
      (404, Body.message "Movie not found") := by
  have hrem : (st.removeAt k).lookup k = none := lookupList_removeList st.movies k
  refine ⟨?_, ?_, hrem, ?_⟩
  · simp [deleteMovie, hn]
  · simp [deleteMovie, hk]
  · simp [deleteMovie, hk, getMovie, hrem]

/-- C6: updating an existing record with no new file attached preserves
its stored `imageUrl` exactly, whatever the request fields and upload
outcome. -/
theorem update_without_file_preserves_imageUrl
    (st : Store) (n : Nat) (m : StoredMovie) (req : MovieReq)
    (u : Except String String)
    (hm : st.lookup n = some m) (hf : req.file = none) :
    ((putMovie st (ReqId.valid n) req u).2.1.lookup n).map StoredMovie.imageUrl =
      some m.imageUrl := by
  cases hmm : mergeMovie req m m.imageUrl with
  | none => simp [putMovie, hm, hf, hmm]
  | some m2 =>
    have him : m2.imageUrl = m.imageUrl := mergeMovie_imageUrl hmm
    have hl : (st.updateAt n m2).lookup n = some m2 := lookupList_updateList m2 hm
    simp [putMovie, hm, hf, hmm, hl, him]

/-- C7: every persisted record has all its fields populated with
non-empty values, and the invariant is preserved by every operation:
create validates all six schema paths before saving, and update falls
back to the previous value for omitted or empty fields and takes its URL
from a successful upload (which the gateway contract makes non-empty). -/
theorem store_invariant_preserved
    (st : Store) (op : Op)
    (hst : storeOk st = true) (hop : opUrlsOk op) :
    storeOk (applyOp st op) = true := by
  cases op with
  | create req u =>
    cases hf : req.file with
    | none => simpa [applyOp, postMovie, hf] using hst
    | some f =>
      cases u with
      | error e => simpa [applyOp, postMovie, hf] using hst
      | ok url =>
        cases hb : buildMovie req url with
        | none => simpa [applyOp, postMovie, hf, hb] using hst
        | some m =>
          have hm : recordOk m = true := (buildMovie_spec hb).2.1
          have hst2 : st.movies.all (fun p => recordOk p.2) = true := hst
          simp [applyOp, postMovie, hf, hb, storeOk, List.all_append, hst2, hm]
  | update id req u =>
    cases id with
    | malformed => simpa [applyOp, putMovie] using hst
    | valid n =>
      cases hm : st.lookup n with
      | none => simpa [applyOp, putMovie, hm] using hst
      | some m =>
        have hrm : recordOk m = true := recordOk_of_lookup hst hm
        cases hf : req.file with
        | none =>
          cases hmm : mergeMovie req m m.imageUrl with
          | none => simpa [applyOp, putMovie, hm, hf, hmm] using hst
          | some m2 =>
            have h2 : recordOk m2 = true :=
              recordOk_mergeMovie hrm (recordOk_fields hrm).2.2.1 hmm
            simpa [applyOp, putMovie, hm, hf, hmm, storeOk, Store.updateAt]
              using all_updateList hst h2
        | some f =>
          cases u with
          | error e => simpa [applyOp, putMovie, hm, hf] using hst
          | ok url =>
            cases hmm : mergeMovie req m url with
            | none => simpa [applyOp, putMovie, hm, hf, hmm] using hst
            | some m2 =>
              have h2 : recordOk m2 = true :=
                recordOk_mergeMovie hrm (hop url rfl) hmm
              simpa [applyOp, putMovie, hm, hf, hmm, storeOk, Store.updateAt]
                using all_updateList hst h2
  | remove id =>
    cases id with
    | malformed => simpa [applyOp, deleteMovie] using hst
    | valid n =>
      cases hm : st.lookup n with
      | none => simpa [applyOp, deleteMovie, hm] using hst
      | some m =>
        simpa [applyOp, deleteMovie, hm, storeOk, Store.removeAt]
          using all_removeList hst
  | readAll => simpa [applyOp] using hst
  | readOne id => simpa [applyOp] using hst

/-- C8 counterexample: a malformed identifier is not handled the same way
as a nonexistent one by GET by id: the malformed id is answered 500 while
the missing one is answered 404. -/
theorem get_malformed_not_like_missing :
    (getMovie emptyStore ReqId.malformed).1 = 500 ∧
    (getMovie emptyStore (ReqId.valid 0)).1 = 404 ∧
    (getMovie emptyStore ReqId.malformed).1 ≠ (getMovie emptyStore (ReqId.valid 0)).1 := by
  refine ⟨by decide, by decide, by decide⟩

/-- C8 (amended): GET by id answers 200 with the record when the
identifier matches a stored record, 404 when no record with that
(castable) identifier exists, and 500 for a malformed identifier —
malformed-id handling surfaces as a caught store failure, distinguished
from not-found. -/
theorem get_by_id_statuses
    (st : Store) (n k : Nat) (m : StoredMovie)
    (hn : st.lookup n = some m) (hk : st.lookup k = none) :
    getMovie st (ReqId.valid n) = (200, Body.movie n m) ∧
    getMovie st (ReqId.valid k) = (404, Body.message "Movie not found") ∧
    getMovie st ReqId.malformed =
      (500, Body.failure "Error fetching movie" "CastError") :=
  ⟨by simp [getMovie, hn], by simp [getMovie, hk], rfl⟩

/-- C9: no handler reads a client-supplied `imageUrl` form field: create
and update behave identically on two requests that differ only in that
field, so the persisted `imageUrl` depends only on the upload result (or
the prior stored value when no file is attached). -/
theorem client_imageUrl_field_ignored
    (st : Store) (id : ReqId) (req : MovieReq) (u : Except String String)
    (v1 v2 : Option String) :
    postMovie st { req with imageUrl := v1 } u =
      postMovie st { req with imageUrl := v2 } u ∧
    putMovie st id { req with imageUrl := v1 } u =
      putMovie st id { req with imageUrl := v2 } u :=
  ⟨rfl, rfl⟩

/-- C10: on a malformed (uncastable) identifier, PUT answers 400 and
DELETE answers 500 — neither answers 404 — and the store is unchanged in
both cases. -/
theorem malformed_id_put_400_delete_500
    (st : Store) (req : MovieReq) (u : Except String String) :
    putMovie st ReqId.malformed req u =
      (400, st, Body.failure "Error updating movie" "CastError") ∧
    (putMovie st ReqId.malformed req u).1 ≠ 404 ∧
    deleteMovie st ReqId.malformed =
      (500, st, Body.failure "Error deleting movie" "CastError") ∧
    (deleteMovie st ReqId.malformed).1 ≠ 404 :=
  ⟨rfl, by simp [putMovie], rfl, by simp [deleteMovie]⟩

/-! ### Witnesses -/

/-- Witness for C1: creating from the empty store with a concrete valid
request and upload URL. -/
theorem create_persists_and_get_returns_witness :
    (∀ p ∈ emptyStore.movies, p.1 ≠ emptyStore.nextId) ∧
    sampleCreateReq.file.isSome = true ∧
    buildMovie sampleCreateReq sampleUrl = some sampleMovie ∧
    (postMovie emptyStore sampleCreateReq (Except.ok sampleUrl) =
       (201, ⟨emptyStore.movies ++ [(emptyStore.nextId, sampleMovie)],
              emptyStore.nextId + 1⟩, Body.movie emptyStore.nextId sampleMovie) ∧
     (postMovie emptyStore sampleCreateReq (Except.ok sampleUrl)).2.1.lookup
        emptyStore.nextId = some sampleMovie ∧
     sampleMovie.imageUrl = sampleUrl ∧
     getMovie (postMovie emptyStore sampleCreateReq (Except.ok sampleUrl)).2.1
        (ReqId.valid emptyStore.nextId) = (200, Body.movie emptyStore.nextId sampleMovie)) :=
  ⟨by decide, by decide, by decide,
   create_persists_and_get_returns emptyStore sampleCreateReq sampleUrl sampleMovie
     (by decide) (by decide) (by decide)⟩

/-- Witness for C2: on `sampleStore`, `updReq` keeps the omitted `title`
and `releaseDate` and the empty `description`, replaces `genre`, sets the
supplied rating "0" to 0, and replaces `imageUrl` by the fresh upload URL
since a file is attached. -/
theorem update_applies_per_field_fallback_witness :
    sampleStore.lookup 0 = some sampleMovie ∧
    specMergedMovie updReq sampleMovie newUrlSample = updatedSample ∧
    updatedSample.rating = 0 ∧
    updatedSample.title = sampleMovie.title ∧
    putMovie sampleStore (ReqId.valid 0) updReq (Except.ok newUrlSample) =
      (200, sampleStore.updateAt 0 (specMergedMovie updReq sampleMovie newUrlSample),
       Body.movie 0 (specMergedMovie updReq sampleMovie newUrlSample)) :=
  ⟨by decide, by decide, by decide, by decide,
   update_applies_per_field_fallback sampleStore 0 sampleMovie updReq
     (Except.ok newUrlSample) newUrlSample (by decide)
     (Or.inr ⟨by decide, rfl⟩)
     (by intro s hs hne
         have h2 : (some "0" : Option String) = some s := hs
         injection h2 with h2
         subst h2
         decide)⟩

/-- Witness for C3: the same request with its file removed is answered
400 and the store is untouched, for two different upload outcomes. -/
theorem create_without_file_rejected_witness :
    noFileReq.file = none ∧
    (postMovie emptyStore noFileReq (Except.ok sampleUrl) =
       (400, emptyStore, Body.message "No file uploaded") ∧
     postMovie emptyStore noFileReq (Except.ok sampleUrl) =
       postMovie emptyStore noFileReq (Except.error "upload failed")) :=
  ⟨by decide,
   create_without_file_rejected emptyStore noFileReq (Except.ok sampleUrl)
     (Except.error "upload failed") (by decide)⟩

/-- Witness for C4: a request with rating "11" is rejected with 500 and
nothing is persisted. -/
theorem create_rating_out_of_range_rejected_witness :
    badRatingReq.rating = some "11" ∧
    castNumber "11" = some 11 ∧
    (10 : Int) < 11 ∧
    ((postMovie emptyStore badRatingReq (Except.ok sampleUrl)).2.1 = emptyStore ∧
     ((postMovie emptyStore badRatingReq (Except.ok sampleUrl)).1 = 400 ∨
      (postMovie emptyStore badRatingReq (Except.ok sampleUrl)).1 = 500)) :=
  ⟨by decide, by decide, by decide,
   create_rating_out_of_range_rejected emptyStore badRatingReq (Except.ok sampleUrl)
     "11" 11 (by decide) (by decide) (Or.inr (by decide))⟩

/-- Witness for C5: on `sampleStore`, id 7 has no record (404, store
unchanged) and id 0 exists (200, removed, subsequent GET 404). -/
theorem delete_nonexistent_404_existing_removes_witness :
    sampleStore.lookup 7 = none ∧
    sampleStore.lookup 0 = some sampleMovie ∧
    (deleteMovie sampleStore (ReqId.valid 7) =
       (404, sampleStore, Body.message "Movie not found") ∧
     deleteMovie sampleStore (ReqId.valid 0) =
       (200, sampleStore.removeAt 0, Body.message "Movie deleted successfully") ∧
     (sampleStore.removeAt 0).lookup 0 = none ∧
     getMovie (deleteMovie sampleStore (ReqId.valid 0)).2.1 (ReqId.valid 0) =
       (404, Body.message "Movie not found")) :=
  ⟨by decide, by decide,
   delete_nonexistent_404_existing_removes sampleStore 7 0 sampleMovie
     (by decide) (by decide)⟩

/-- Witness for C6: updating the stored record without a file leaves its
`imageUrl` untouched. -/
theorem update_without_file_preserves_imageUrl_witness :
    sampleStore.lookup 0 = some sampleMovie ∧
    updReqNoFile.file = none ∧
    ((putMovie sampleStore (ReqId.valid 0) updReqNoFile
        (Except.error "no upload")).2.1.lookup 0).map StoredMovie.imageUrl =
      some sampleMovie.imageUrl :=
  ⟨by decide, by decide,
   update_without_file_preserves_imageUrl sampleStore 0 sampleMovie updReqNoFile
     (Except.error "no upload") (by decide) (by decide)⟩

/-- Witness for C7: the invariant holds on `sampleStore` and is preserved
by a concrete update with a successful, non-empty upload URL. -/
theorem store_invariant_preserved_witness :
    storeOk sampleStore = true ∧
    storeOk (applyOp sampleStore
      (Op.update (ReqId.valid 0) updReq (Except.ok newUrlSample))) = true :=
  ⟨by decide,
   store_invariant_preserved sampleStore
     (Op.update (ReqId.valid 0) updReq (Except.ok newUrlSample))
     (by decide)
     (by intro url h
         injection h with h
         subst h
         decide)⟩

/-- Witness for C8 (amended): on `sampleStore`, id 0 is found (200), id 9
is missing (404), and a malformed id is answered 500. -/
theorem get_by_id_statuses_witness :
    sampleStore.lookup 0 = some sampleMovie ∧
    sampleStore.lookup 9 = none ∧
    (getMovie sampleStore (ReqId.valid 0) = (200, Body.movie 0 sampleMovie) ∧
     getMovie sampleStore (ReqId.valid 9) = (404, Body.message "Movie not found") ∧
     getMovie sampleStore ReqId.malformed =
       (500, Body.failure "Error fetching movie" "CastError")) :=
  ⟨by decide, by decide,
   get_by_id_statuses sampleStore 0 9 sampleMovie (by decide) (by decide)⟩
